import Mathlib

/-!
Verification of the accessibility device-control utility
(advanced_camera_controller.py and advanced_mic_controller.py).

Python strings are modelled as lists of characters (`PyStr`), so that the
string primitives the source relies on (`str.strip`, `str.split(sep)`,
substring membership) are structurally recursive and computable in the
kernel.  Machine integers in the source are plain Python ints, modelled as
`Int`/`Nat`; audio volume scalars are Python floats that the source only
ever multiplies/divides by 100, modelled as `Rat`.
-/

/-- Python strings, modelled as lists of characters. -/
abbrev PyStr := List Char

/-- Model of Python `str.split(sep)` for a one-character separator:
splits on every occurrence of the separator and keeps empty fields
(`"".split(sep) == [""]`, `"a||b".split("|") == ["a", "", "b"]`). -/
def pySplit (sep : Char) : PyStr → List PyStr
  | [] => [[]]
  | c :: rest =>
    if c == sep then
      [] :: pySplit sep rest
    else
      match pySplit sep rest with
      | g :: gs => (c :: g) :: gs
      | [] => [[c]]

/-- Model of Python `str.strip()`: drop whitespace from both ends. -/
def pyStrip (s : PyStr) : PyStr :=
  ((s.dropWhile Char.isWhitespace).reverse.dropWhile Char.isWhitespace).reverse

/-- Whether `pat` occurs at the start of `hay` (helper for substring search). -/
def matchHere : PyStr → PyStr → Bool
  | [], _ => true
  | _ :: _, [] => false
  | p :: ps, h :: hs => p == h && matchHere ps hs

/-- Whether `pat` occurs contiguously somewhere inside `hay` (helper). -/
def hasSub (pat : PyStr) : PyStr → Bool
  | [] => matchHere pat []
  | h :: hs => matchHere pat (h :: hs) || hasSub pat hs

/-- Model of the PowerShell wildcard test `InstanceId -like "*pattern*"` used by
the source: `hay` contains `pat` as a contiguous substring. -/
def strContainsSub (hay pat : PyStr) : Bool := hasSub pat hay

/-- The literal `"OK"` status the source compares device status against. -/
def statusOK : PyStr := "OK".toList

/-- A camera/imaging device record as built by `get_camera_devices`
(advanced_camera_controller.py, lines 914-920): the dict with keys
name, instance_id, status, class, present.  The `class` key is named
`deviceCls` here. -/
structure Device where
  name : PyStr
  instance_id : PyStr
  status : PyStr
  deviceCls : PyStr
  present : PyStr
deriving Repr, DecidableEq

/-- Parsing of one line of the PowerShell query output
(advanced_camera_controller.py, lines 901-909): the line is considered
only if its strip is non-empty and it contains a pipe character; it is
split on pipes and must have at least 4 fields; the fields are stripped,
and the fifth field defaults to the string `"True"` when absent. -/
def parseCameraLine (line : PyStr) : Option Device :=
  if pyStrip line = [] then none
  else if line.contains '|' then
    match pySplit '|' (pyStrip line) with
    | p0 :: p1 :: p2 :: p3 :: rest =>
      some { name := pyStrip p0
             instance_id := pyStrip p1
             status := pyStrip p2
             deviceCls := pyStrip p3
             present := match rest with
                        | p4 :: _ => pyStrip p4
                        | [] => "True".toList }
    | _ => none
  else none

/-- One step of the accumulation loop of `get_camera_devices`
(lines 911-920): a parsed device is appended only when its instance id has
not been seen among the devices accumulated so far and its name is
non-empty. -/
def camFoldStep (acc : List Device) (line : PyStr) : List Device :=
  match parseCameraLine line with
  | some d =>
    if acc.any (fun c => c.instance_id == d.instance_id) then acc
    else if d.name.isEmpty then acc
    else acc ++ [d]
  | none => acc

/-- The accumulation loop of `get_camera_devices` over the output lines. -/
def camFold (acc : List Device) : List PyStr → List Device
  | [] => acc
  | line :: rest => camFold (camFoldStep acc line) rest

/-- The devices that parse from the raw lines, in order, with the
empty-name entries discarded: the stream from which `get_camera_devices`
de-duplicates.  Derived from `parseCameraLine` for stating the
first-seen-wins property. -/
def validParsed : List PyStr → List Device
  | [] => []
  | line :: rest =>
    match parseCameraLine line with
    | some d => if d.name.isEmpty then validParsed rest else d :: validParsed rest
    | none => validParsed rest

/-- Outcome of the external PowerShell device query as seen by
`get_camera_devices`: either the `subprocess.run` call raised (error or
15-second timeout), or the process exited with a return code and stdout. -/
inductive QueryOutcome where
  | raised
  | exited (returncode : Int) (stdout : PyStr)
deriving Repr, DecidableEq

/-- Model of `result.stdout.strip().split("\n")` (line 898). -/
def pyLines (stdout : PyStr) : List PyStr := pySplit '\n' (pyStrip stdout)

/-- Model of `get_camera_devices` (advanced_camera_controller.py, lines
828-925): on a raised exception (including the 15-second timeout) the
accumulated empty list is returned; output is parsed only when the return
code is zero. -/
def get_camera_devices : QueryOutcome → List Device
  | .raised => []
  | .exited code out => if code = 0 then camFold [] (pyLines out) else []

/-- Model of the strategy cascade of `change_device_state`
(advanced_camera_controller.py, lines 1064-1083).  The booleans are the
results the three strategies would report if attempted: strategy 1 is
`try_pnp_device_method` (direct instance method), strategy 2 is
`try_devcon_method` (pattern-based method), strategy 3 is `try_wmi_method`
(low-level object method).  Returned are the overall boolean result and
the list of strategies attempted, in order. -/
def change_device_state (s1 s2 s3 : Bool) : Bool × List Nat :=
  if s1 then (true, [1])
  else if s2 then (true, [1, 2])
  else if s3 then (true, [1, 2, 3])
  else (false, [1, 2, 3])

/-- The result strategy `i` reports when attempted (1 = direct instance,
2 = pattern-based, 3 = low-level object). -/
def strategyResult (s1 s2 s3 : Bool) (i : Nat) : Bool :=
  if i = 1 then s1 else if i = 2 then s2 else if i = 3 then s3 else false

/-- Hardware-id pattern derivation of `try_devcon_method`
(advanced_camera_controller.py, lines 1143-1149): the first two
backslash-delimited segments of the instance id, or the whole id when it
has fewer than two segments. -/
def hardware_pattern (instance_id : PyStr) : PyStr :=
  match pySplit '\\' instance_id with
  | p0 :: p1 :: _ => p0 ++ '\\' :: p1
  | _ => instance_id

/-- Observable behaviour of one run of the `try_devcon_method` PowerShell
script: the derived pattern, the devices the enable/disable action was
issued against, the per-device action results (only logged by the script),
and the overall reported success. -/
structure DevconResult where
  pattern : PyStr
  acted_on : List Device
  perDevice : List Bool
  success : Bool
deriving Repr, DecidableEq

/-- Model of `try_devcon_method` (advanced_camera_controller.py, lines
1138-1195) given the OS device table `devices` and the per-device action
outcome `actionOk`: every device whose instance id contains the derived
pattern as a substring receives the action (its individual failure is
caught and only logged by the script), and `SUCCESS` is printed, with exit
code 0, exactly when the match list is non-empty. -/
def try_devcon_method (devices : List Device) (instance_id : PyStr)
    (actionOk : Device → Bool) : DevconResult :=
  let pat := hardware_pattern instance_id
  let matched := devices.filter (fun d => strContainsSub d.instance_id pat)
  { pattern := pat
    acted_on := matched
    perDevice := matched.map actionOk
    success := !matched.isEmpty }

/-- Outcome of a user-triggered disable/enable request path in
advanced_camera_controller.py, at the granularity the privilege-policy
claim needs.  `invokeStateChanges ops` means `change_device_state` is
invoked for each `(instance_id, enable)` pair in `ops`; every other
constructor means no state-change strategy is attempted. -/
inductive UiOutcome where
  | noSelectionWarning
  | noCamerasInfo
  | alreadyInStateInfo
  | adminWarning
  | relaunchOffer (accepted : Bool)
  | cancelled
  | deferredRetry
  | invokeStateChanges (ops : List (PyStr × Bool))
deriving Repr, DecidableEq

/-- Model of `disable_camera` (lines 1024-1062): no selection warns;
without admin privileges an elevation-relaunch dialog is offered and
nothing else happens; otherwise a confirmation gate precedes the
`change_device_state(instance_id, enable=False)` call. -/
def disable_camera (selected : Option Device) (is_admin accept confirm : Bool) :
    UiOutcome :=
  match selected with
  | none => .noSelectionWarning
  | some cam =>
    if !is_admin then .relaunchOffer accept
    else if !confirm then .cancelled
    else .invokeStateChanges [(cam.instance_id, false)]

/-- Model of `tray_disable_specific_camera` (lines 334-344): the handler
itself performs no privilege check and immediately invokes
`change_device_state(instance_id, enable=False)`.  The `is_admin`
parameter is in scope (as `self.is_admin` is in the source) but unread. -/
def tray_disable_specific_camera (is_admin : Bool) (cam : Device) : UiOutcome :=
  .invokeStateChanges [(cam.instance_id, false)]

/-- Model of `disable_all_cameras` (lines 1337-1377). -/
def disable_all_cameras (cameras : List Device) (is_admin accept confirm : Bool) :
    UiOutcome :=
  if cameras.isEmpty then .noCamerasInfo
  else if !is_admin then .relaunchOffer accept
  else
    let enabled := cameras.filter (fun c => c.status == statusOK)
    if enabled.isEmpty then .alreadyInStateInfo
    else if !confirm then .cancelled
    else .invokeStateChanges (enabled.map (fun c => (c.instance_id, false)))

/-- Model of `shortcut_disable_camera` (lines 572-592): without admin
privileges only a warning notification is shown (no relaunch dialog). -/
def shortcut_disable_camera (is_admin : Bool) (selected : Option Device)
    (cameras : List Device) (accept confirm : Bool) : UiOutcome :=
  if !is_admin then .adminWarning
  else
    match selected with
    | some _ => disable_camera selected is_admin accept confirm
    | none =>
      if !cameras.isEmpty then
        let enabled := cameras.filter (fun c => c.status == statusOK)
        if !enabled.isEmpty then disable_all_cameras cameras is_admin accept confirm
        else .alreadyInStateInfo
      else .noCamerasInfo

/-- Model of `tray_disable_all` (lines 407-436): without admin privileges
only a warning notification is shown (no relaunch dialog); with an empty
camera list a refresh is scheduled and the request retried later. -/
def tray_disable_all (is_admin : Bool) (cameras : List Device) : UiOutcome :=
  if !is_admin then .adminWarning
  else if cameras.isEmpty then .deferredRetry
  else
    let enabled := cameras.filter (fun c => c.status == statusOK)
    if enabled.isEmpty then .alreadyInStateInfo
    else .invokeStateChanges (enabled.map (fun c => (c.instance_id, false)))

/-- The tray disable submenu as built by `build_disable_camera_submenu`
(lines 271-314): without admin privileges the submenu holds only an
"Administrator privileges required" label and a "Restart as Administrator"
item, so no per-camera disable handler is ever installed unelevated. -/
inductive TrayDisableMenu where
  | adminRequiredWithRestart
  | noCamerasRefresh
  | allDisabledRefresh
  | perCameraDisableItems (cams : List Device)
deriving Repr, DecidableEq

/-- Model of `build_disable_camera_submenu` (lines 271-314). -/
def build_disable_camera_submenu (is_admin : Bool) (cameras : List Device) :
    TrayDisableMenu :=
  if !is_admin then .adminRequiredWithRestart
  else if cameras.isEmpty then .noCamerasRefresh
  else
    let enabled := cameras.filter (fun c => c.status == statusOK)
    if enabled.isEmpty then .allDisabledRefresh
    else .perCameraDisableItems enabled

/-- Whether an outcome offers the relaunch-with-elevation dialog. -/
def offersRelaunch : UiOutcome → Bool
  | .relaunchOffer _ => true
  | _ => false

/-- Whether an outcome invokes `change_device_state` with `enable=False`
for some device. -/
def invokesDisable : UiOutcome → Bool
  | .invokeStateChanges ops => ops.any (fun op => !op.2)
  | _ => false

/-- A concrete camera record used to instantiate the theorems. -/
def sampleCamera : Device :=
  { name := "Integrated Camera".toList
    instance_id := "USB\\VID_04F2&PID_B604\\0001".toList
    status := "OK".toList
    deviceCls := "Camera".toList
    present := "True".toList }

/-- Conversion `int(scalar * 100)` the source applies to the platform
volume scalar (advanced_mic_controller.py, lines 193, 874, 909).  Python
`int()` truncates toward zero; the scalar the platform reports lies in
`[0, 1]`, where truncation and floor agree. -/
def scalarToPercent (s : Rat) : Int := ⌊s * 100⌋

/-- Outcome of reading `self.volume_interface.GetMasterVolumeLevelScalar()`:
no interface bound, a successful read of a scalar, or a raised platform
exception. -/
inductive VolReadOutcome where
  | noInterface
  | ok (scalar : Rat)
  | raised
deriving DecidableEq

/-- Model of `get_current_volume` (advanced_mic_controller.py, lines
188-196): the cached `self.current_volume` value is in scope but unread;
on a missing interface or a raised read the function returns `None`. -/
def get_current_volume (read : VolReadOutcome) (cachedVolume : Int) : Option Int :=
  match read with
  | .ok s => some (scalarToPercent s)
  | .noInterface => none
  | .raised => none

/-- Model of `update_volume_display` (advanced_mic_controller.py, lines
869-882), returning (new cached `current_volume` value, displayed volume):
a successful read updates the cache and display; a missing interface or a
raised read leaves the cache and displays the cached value. -/
def update_volume_display (read : VolReadOutcome) (cachedVolume : Int) : Int × Int :=
  match read with
  | .ok s => (scalarToPercent s, scalarToPercent s)
  | .noInterface => (cachedVolume, cachedVolume)
  | .raised => (cachedVolume, cachedVolume)

/-- Where a `set_volume` call sends the volume: the scalar passed to
`SetMasterVolumeLevelScalar`, or the system-command fallback path. -/
inductive SetVolumePath where
  | applied (scalar : Rat)
  | fallback
deriving DecidableEq

/-- Model of `set_volume` (advanced_mic_controller.py, lines 800-816),
returning (new cached `current_volume` value, volume sink): the cache is
set to the argument unconditionally, and with an interface bound the
scalar `volume / 100.0` is passed to the platform as is — there is no
range check or clamping anywhere in the function. -/
def set_volume (hasInterface : Bool) (volume : Int) : Int × SetVolumePath :=
  (volume, if hasInterface then .applied ((volume : Rat) / 100) else .fallback)

/-- One iteration of the volume-lock polling loop of `maintain_volume`
(advanced_mic_controller.py, lines 905-918), returning (volume passed to
`set_volume`, if any; seconds slept before the next iteration).  With no
interface bound nothing is read and the loop just sleeps 2 seconds; a
raised read jumps to the handler which sleeps 5 seconds; a successful read
triggers `set_volume(target)` exactly when the distance to the target
exceeds 5 percentage points, and a raise escaping that write also lands in
the 5-second handler. -/
def maintain_volume_iter (target : Int) (read : VolReadOutcome) (writeRaises : Bool) :
    Option Int × Nat :=
  match read with
  | .noInterface => (none, 2)
  | .raised => (none, 5)
  | .ok s =>
    let current := scalarToPercent s
    if 5 < (current - target).natAbs then
      (some target, if writeRaises then 5 else 2)
    else (none, 2)

/-- Per-iteration environment of the volume-lock loop: the value the
`self.current_volume` variable holds during that iteration (the loop never
reads it), the platform read outcome, and whether the corrective write
raises. -/
structure LockIterEnv where
  currentVolumeVar : Int
  read : VolReadOutcome
  writeRaises : Bool

/-- The corrective `set_volume` calls the lock loop issues with local
target `target`, across a run of iterations. -/
def maintain_volume_writes (target : Int) : List LockIterEnv → List Int
  | [] => []
  | e :: rest =>
    match (maintain_volume_iter target e.read e.writeRaises).1 with
    | some v => v :: maintain_volume_writes target rest
    | none => maintain_volume_writes target rest

/-- Model of a full `maintain_volume` run (advanced_mic_controller.py,
lines 901-918): line 903 reads `self.current_volume` exactly once, before
the loop, into the local `target_volume`; the loop body never consults the
variable again. -/
def maintain_volume_run (initialCurrentVolume : Int) (envs : List LockIterEnv) :
    List Int :=
  maintain_volume_writes initialCurrentVolume envs

/-- Environment of an `unmute` call: the platform mute interface is bound
and its `SetMute(0, None)` call succeeds, the call raises, or no interface
is bound. -/
inductive UnmuteEnv where
  | ifaceOk
  | ifaceRaises
  | noInterface
deriving Repr, DecidableEq

/-- Model of `unmute` (advanced_mic_controller.py, lines 849-867),
returning (new cached `current_volume` value, volume passed to
`set_volume`, if any): when the platform unmute succeeds only the display
is updated; with no interface, or when the platform call raises, the
cached volume is re-applied through `set_volume`, substituting 50 when the
cache holds 0. -/
def unmute (env : UnmuteEnv) (cachedVolume : Int) : Int × Option Int :=
  match env with
  | .ifaceOk => (cachedVolume, none)
  | .noInterface =>
    let volume := if cachedVolume = 0 then 50 else cachedVolume
    (volume, some volume)
  | .ifaceRaises =>
    let volume := if cachedVolume = 0 then 50 else cachedVolume
    (volume, some volume)
theorem camFoldStep_pairwise {acc : List Device} {line : PyStr}
    (h : acc.Pairwise (fun a b => a.instance_id ≠ b.instance_id)) :
    (camFoldStep acc line).Pairwise (fun a b => a.instance_id ≠ b.instance_id) := by
  unfold camFoldStep
  rcases hp : parseCameraLine line with _ | d
  · exact h
  · by_cases hseen : acc.any (fun c => c.instance_id == d.instance_id) = true
    · simp [hseen, h]
    · simp only [hseen, if_false, Bool.false_eq_true]
      by_cases hname : d.name.isEmpty = true
      · simp [hname, h]
      · simp only [hname, if_false, Bool.false_eq_true]
        refine List.pairwise_append.mpr ⟨h, List.pairwise_singleton _ _, ?_⟩
        intro a ha b hb
        simp only [List.mem_singleton] at hb
        subst hb
        simp only [List.any_eq_true, not_exists, not_and] at hseen
        push_neg at hseen
        intro heq
        have := hseen a ha
        simp [heq] at this

theorem camFold_pairwise (ls : List PyStr) :
    ∀ acc : List Device, acc.Pairwise (fun a b => a.instance_id ≠ b.instance_id) →
      (camFold acc ls).Pairwise (fun a b => a.instance_id ≠ b.instance_id) := by
  induction ls with
  | nil => intro acc h; exact h
  | cons l rest ih => intro acc h; exact ih _ (camFoldStep_pairwise h)

theorem camFoldStep_names {acc : List Device} {line : PyStr}
    (h : ∀ a ∈ acc, a.name ≠ []) :
    ∀ a ∈ camFoldStep acc line, a.name ≠ [] := by
  unfold camFoldStep
  rcases hp : parseCameraLine line with _ | d
  · exact h
  · by_cases hseen : acc.any (fun c => c.instance_id == d.instance_id) = true
    · simp only [hseen, if_true]; exact h
    · simp only [hseen, if_false, Bool.false_eq_true]
      by_cases hname : d.name.isEmpty = true
      · simp only [hname, if_true]; exact h
      · simp only [hname, if_false, Bool.false_eq_true]
        intro a ha
        rcases List.mem_append.mp ha with ha | ha
        · exact h a ha
        · simp only [List.mem_singleton] at ha
          subst ha
          intro hnil
          simp [hnil] at hname

theorem camFold_names (ls : List PyStr) :
    ∀ acc : List Device, (∀ a ∈ acc, a.name ≠ []) →
      ∀ a ∈ camFold acc ls, a.name ≠ [] := by
  induction ls with
  | nil => intro acc h; exact h
  | cons l rest ih => intro acc h; exact ih _ (camFoldStep_names h)

theorem camFold_firstSeen (ls : List PyStr) :
    ∀ (acc : List Device) (d : Device), d ∈ camFold acc ls →
      d ∈ acc ∨ ((validParsed ls).find? (fun c => c.instance_id == d.instance_id) = some d
                 ∧ ∀ a ∈ acc, a.instance_id ≠ d.instance_id) := by
  induction ls with
  | nil => intro acc d hd; exact Or.inl hd
  | cons l rest ih =>
    intro acc d hd
    simp only [camFold] at hd
    rcases hp : parseCameraLine l with _ | e
    · have hstep : camFoldStep acc l = acc := by simp [camFoldStep, hp]
      rw [hstep] at hd
      rcases ih acc d hd with h | ⟨hf, hall⟩
      · exact Or.inl h
      · exact Or.inr ⟨by simp [validParsed, hp, hf], hall⟩
    · by_cases hseen : acc.any (fun c => c.instance_id == e.instance_id) = true
      · have hstep : camFoldStep acc l = acc := by simp [camFoldStep, hp, hseen]
        rw [hstep] at hd
        rcases ih acc d hd with h | ⟨hf, hall⟩
        · exact Or.inl h
        · refine Or.inr ⟨?_, hall⟩
          by_cases hname : e.name.isEmpty = true
          · simp [validParsed, hp, hname, hf]
          · -- e is a valid parsed device; its id was seen in acc, while d's id was not
            have hne : (e.instance_id == d.instance_id) = false := by
              simp only [List.any_eq_true] at hseen
              rcases hseen with ⟨a, ha, hae⟩
              have h1 : a.instance_id = e.instance_id := beq_iff_eq.mp hae
              have h2 : a.instance_id ≠ d.instance_id := hall a ha
              rw [h1] at h2
              simp [h2]
            simp only [validParsed, hp, hname, if_false, Bool.false_eq_true]
            rw [List.find?_cons_of_neg _ (by simp [hne]), hf]
      · by_cases hname : e.name.isEmpty = true
        · have hstep : camFoldStep acc l = acc := by simp [camFoldStep, hp, hseen, hname]
          rw [hstep] at hd
          rcases ih acc d hd with h | ⟨hf, hall⟩
          · exact Or.inl h
          · exact Or.inr ⟨by simp [validParsed, hp, hname, hf], hall⟩
        · have hstep : camFoldStep acc l = acc ++ [e] := by
            simp [camFoldStep, hp, hseen, hname]
          rw [hstep] at hd
          have hnotseen : ∀ a ∈ acc, a.instance_id ≠ e.instance_id := by
            simp only [List.any_eq_true, not_exists] at hseen
            push_neg at hseen
            intro a ha heq
            have := hseen a ha
            simp [heq] at this
          rcases ih (acc ++ [e]) d hd with h | ⟨hf, hall⟩
          · rcases List.mem_append.mp h with h | h
            · exact Or.inl h
            · simp only [List.mem_singleton] at h
              subst h
              refine Or.inr ⟨?_, hnotseen⟩
              simp only [validParsed, hp, hname, if_false, Bool.false_eq_true]
              exact List.find?_cons_of_pos _ (by simp)
          · have hde : e.instance_id ≠ d.instance_id :=
              hall e (List.mem_append.mpr (Or.inr (List.mem_singleton.mpr rfl)))
            refine Or.inr ⟨?_, fun a ha => hall a (List.mem_append.mpr (Or.inl ha))⟩
            simp only [validParsed, hp, hname, if_false, Bool.false_eq_true]
            rw [List.find?_cons_of_neg _ (by simp [hde]), hf]

/-- C5: every snapshot returned by `get_camera_devices` has
pairwise-distinct instance ids and no entry with an empty (trimmed) name
— each stored `name` is the stripped first field, so non-emptiness of the
stored name is non-emptiness of the trimmed raw name — and when the same
instance id parses from several raw lines, the entry kept is the first
valid parsed device with that id. -/
theorem spec_C5_snapshot_invariants :
    ∀ q : QueryOutcome,
      (get_camera_devices q).Pairwise (fun a b => a.instance_id ≠ b.instance_id)
      ∧ (∀ d ∈ get_camera_devices q, d.name ≠ [])
      ∧ (∀ (code : Int) (out : PyStr), q = QueryOutcome.exited code out →
          ∀ d ∈ get_camera_devices q,
            (validParsed (pyLines out)).find?
              (fun c => c.instance_id == d.instance_id) = some d) := by
  intro q
  rcases q with _ | ⟨code, out⟩
  · refine ⟨List.Pairwise.nil, by simp [get_camera_devices], ?_⟩
    intro code out h
    cases h
  · by_cases hcode : code = 0
    · subst hcode
      have hget : get_camera_devices (QueryOutcome.exited 0 out)
          = camFold [] (pyLines out) := by simp [get_camera_devices]
      refine ⟨?_, ?_, ?_⟩
      · rw [hget]; exact camFold_pairwise _ [] List.Pairwise.nil
      · rw [hget]; exact camFold_names _ [] (by simp)
      · intro code2 out2 heq
        cases heq
        rw [hget]
        intro d hd
        rcases camFold_firstSeen (pyLines out) [] d hd with h | ⟨hf, _⟩
        · cases h
        · exact hf
    · have hget : get_camera_devices (QueryOutcome.exited code out) = [] := by
        simp [get_camera_devices, hcode]
      refine ⟨by rw [hget]; exact List.Pairwise.nil, by rw [hget]; simp, ?_⟩
      intro code2 out2 heq d hd
      rw [hget] at hd
      cases hd

/-- A concrete stdout for the query, in which the same instance id occurs
on two lines (first-seen entry wins) and one line has a blank name. -/
def sampleStdout : PyStr :=
  ("CamA|USB\\VID_1234&PID_5678\\0001|OK|Camera|True\n" ++
   "CamB|USB\\VID_1234&PID_5678\\0001|Error|Image|True\n" ++
   " |USB\\VID_9999&PID_0000\\0002|OK|Camera|True").toList

/-- The device the first line of `sampleStdout` parses to. -/
def sampleParsedDevice : Device :=
  { name := "CamA".toList
    instance_id := "USB\\VID_1234&PID_5678\\0001".toList
    status := "OK".toList
    deviceCls := "Camera".toList
    present := "True".toList }

/-- Witness for C5 at a concrete query outcome: the duplicated instance id
resolves to the first-seen entry. -/
theorem spec_C5_snapshot_invariants_witness :
    (validParsed (pyLines sampleStdout)).find?
      (fun c => c.instance_id == sampleParsedDevice.instance_id)
      = some sampleParsedDevice :=
  (spec_C5_snapshot_invariants (QueryOutcome.exited 0 sampleStdout)).2.2
    0 sampleStdout rfl sampleParsedDevice (by decide)

/-- C4: when the OS device query raises (error or ~15-second timeout) or
exits non-zero, `get_camera_devices` returns the empty list instead of
propagating the failure; and a successful query that finds no devices
returns the same empty list, so the return value does not distinguish
"no devices found" from "query failed". -/
theorem spec_C4_query_failure_empty :
    get_camera_devices QueryOutcome.raised = []
    ∧ (∀ (code : Int) (out : PyStr), code ≠ 0 →
        get_camera_devices (QueryOutcome.exited code out) = [])
    ∧ get_camera_devices (QueryOutcome.exited 0 [])
        = get_camera_devices QueryOutcome.raised := by
  refine ⟨rfl, ?_, by decide⟩
  intro code out hcode
  simp [get_camera_devices, hcode]

/-- Witness for C4: a non-zero exit code discards even perfectly
parseable output. -/
theorem spec_C4_query_failure_empty_witness :
    get_camera_devices (QueryOutcome.exited 1 sampleStdout) = [] :=
  spec_C4_query_failure_empty.2.1 1 sampleStdout (by decide)

/-- C1: `change_device_state` attempts the strategies in the fixed order
direct-instance (1), pattern-based (2), low-level object (3): the attempt
list is always an initial segment of `[1, 2, 3]` starting at 1, each
attempted strategy is attempted exactly once, no strategy is attempted
after one that reports success, and the overall result is true exactly
when some attempted strategy reports success (equivalently, when any of
the three would report success). -/
theorem spec_C1_cascade :
    ∀ s1 s2 s3 : Bool,
      (change_device_state s1 s2 s3).1 = (s1 || s2 || s3)
      ∧ (change_device_state s1 s2 s3).2
          = List.take (change_device_state s1 s2 s3).2.length [1, 2, 3]
      ∧ 1 ∈ (change_device_state s1 s2 s3).2
      ∧ (change_device_state s1 s2 s3).2.Nodup
      ∧ (∀ i ∈ (change_device_state s1 s2 s3).2, strategyResult s1 s2 s3 i = true →
          ∀ j ∈ (change_device_state s1 s2 s3).2, j ≤ i)
      ∧ ((change_device_state s1 s2 s3).1 = true ↔
          ∃ i ∈ (change_device_state s1 s2 s3).2, strategyResult s1 s2 s3 i = true) := by
  decide

/-- Witness for C1 at the cascade `false, false, true`: strategies 1 and 2
fail, strategy 3 succeeds, the overall result is true, and every attempted
strategy index is at most 3 (nothing runs after the success). -/
theorem spec_C1_cascade_witness :
    (2 : Nat) ≤ 3 ∧ (change_device_state false false true).1 = true :=
  ⟨(spec_C1_cascade false false true).2.2.2.2.1 3 (by decide) (by decide) 2 (by decide),
   (spec_C1_cascade false false true).2.2.2.2.2.mpr ⟨3, by decide, by decide⟩⟩

/-- A second camera sharing the vendor/product segments of `sampleCamera`
but with a different serial suffix. -/
def siblingCamera : Device :=
  { name := "Integrated Camera (rear)".toList
    instance_id := "USB\\VID_04F2&PID_B604\\0002".toList
    status := "OK".toList
    deviceCls := "Camera".toList
    present := "True".toList }

/-- C2: the pattern-based strategy derives its pattern from the first two
backslash-delimited segments of the instance id, issues the action against
every device whose instance id contains that pattern as a substring (the
whole filter, not just the first match), and reports success exactly when
at least one matching device exists — independently of the per-device
action results. -/
theorem spec_C2_devcon_pattern :
    ∀ (devices : List Device) (instance_id : PyStr) (f g : Device → Bool),
      (∀ (p0 p1 : PyStr) (rest : List PyStr),
          pySplit '\\' instance_id = p0 :: p1 :: rest →
          (try_devcon_method devices instance_id f).pattern = p0 ++ '\\' :: p1)
      ∧ (try_devcon_method devices instance_id f).acted_on
          = devices.filter
              (fun d => strContainsSub d.instance_id (hardware_pattern instance_id))
      ∧ (∀ d ∈ devices,
          strContainsSub d.instance_id (hardware_pattern instance_id) = true →
          d ∈ (try_devcon_method devices instance_id f).acted_on)
      ∧ ((try_devcon_method devices instance_id f).success = true ↔
          ∃ d ∈ devices,
            strContainsSub d.instance_id (hardware_pattern instance_id) = true)
      ∧ (try_devcon_method devices instance_id f).success
          = (try_devcon_method devices instance_id g).success := by
  intro devices instance_id f g
  refine ⟨?_, rfl, ?_, ?_, rfl⟩
  · intro p0 p1 rest h
    simp [try_devcon_method, hardware_pattern, h]
  · intro d hd hsub
    simp only [try_devcon_method, List.mem_filter]
    exact ⟨hd, hsub⟩
  · simp [try_devcon_method, List.isEmpty_iff, List.filter_eq_nil_iff]

/-- Witness for C2 on a concrete device table: the pattern is the first
two segments of the instance id, the sibling device with the same
vendor/product segments is acted on even though it is not the queried
device, and success is reported although every per-device action fails. -/
theorem spec_C2_devcon_pattern_witness :
    (try_devcon_method [sampleCamera, siblingCamera] sampleCamera.instance_id
        (fun _ => false)).pattern
      = "USB".toList ++ '\\' :: "VID_04F2&PID_B604".toList
    ∧ siblingCamera ∈ (try_devcon_method [sampleCamera, siblingCamera]
        sampleCamera.instance_id (fun _ => false)).acted_on
    ∧ (try_devcon_method [sampleCamera, siblingCamera] sampleCamera.instance_id
        (fun _ => false)).success = true :=
  ⟨(spec_C2_devcon_pattern [sampleCamera, siblingCamera] sampleCamera.instance_id
      (fun _ => false) (fun _ => false)).1
      "USB".toList "VID_04F2&PID_B604".toList ["0001".toList] (by decide),
   (spec_C2_devcon_pattern [sampleCamera, siblingCamera] sampleCamera.instance_id
      (fun _ => false) (fun _ => false)).2.2.1 siblingCamera (by decide) (by decide),
   (spec_C2_devcon_pattern [sampleCamera, siblingCamera] sampleCamera.instance_id
      (fun _ => false) (fun _ => false)).2.2.2.1.mpr
      ⟨siblingCamera, by decide, by decide⟩⟩

/-- Counterexample to C3: the tray "Disable All Cameras" handler, invoked
in an unelevated process with one enabled camera present, rejects the
request with only a warning notification — the claimed
relaunch-with-elevation offer is not made on this path (the keyboard
shortcut path behaves the same way). -/
theorem spec_C3_counterexample :
    tray_disable_all false [sampleCamera] = UiOutcome.adminWarning
    ∧ offersRelaunch (tray_disable_all false [sampleCamera]) = false
    ∧ invokesDisable (tray_disable_all false [sampleCamera]) = false
    ∧ shortcut_disable_camera false none [sampleCamera] true true
        = UiOutcome.adminWarning := by
  decide

/-- C3 as amended: every disable path rejects an unelevated request before
any state-change strategy is attempted — the window button and bulk button
paths offer the relaunch-with-elevation dialog, the tray disable submenu
replaces the per-camera items with a "Restart as Administrator" entry so
the unchecked `tray_disable_specific_camera` handler is never installed
unelevated, while the keyboard-shortcut and tray bulk-disable paths reject
with only a warning notification and no relaunch offer. -/
theorem spec_C3_unelevated_disable_paths :
    ∀ (cam : Device) (cameras : List Device) (sel : Option Device)
      (accept confirm : Bool),
      disable_camera (some cam) false accept confirm = UiOutcome.relaunchOffer accept
      ∧ invokesDisable (disable_camera sel false accept confirm) = false
      ∧ disable_all_cameras cameras false accept confirm
          = (if cameras.isEmpty then UiOutcome.noCamerasInfo
             else UiOutcome.relaunchOffer accept)
      ∧ invokesDisable (disable_all_cameras cameras false accept confirm) = false
      ∧ shortcut_disable_camera false sel cameras accept confirm
          = UiOutcome.adminWarning
      ∧ tray_disable_all false cameras = UiOutcome.adminWarning
      ∧ build_disable_camera_submenu false cameras
          = TrayDisableMenu.adminRequiredWithRestart
      ∧ tray_disable_specific_camera false cam
          = UiOutcome.invokeStateChanges [(cam.instance_id, false)] := by
  intro cam cameras sel accept confirm
  refine ⟨rfl, ?_, ?_, ?_, ?_, ?_, ?_, rfl⟩
  · rcases sel with _ | c
    · rfl
    · rfl
  · by_cases h : cameras.isEmpty = true
    · simp [disable_all_cameras, h]
    · simp [disable_all_cameras, h]
  · by_cases h : cameras.isEmpty = true
    · simp [disable_all_cameras, invokesDisable, h]
    · simp [disable_all_cameras, invokesDisable, h]
  · simp [shortcut_disable_camera]
  · simp [tray_disable_all]
  · simp [build_disable_camera_submenu]

/-- C6: while the lock is engaged, an iteration with a successful read
invokes `set_volume(target)` exactly when the current volume differs from
the target by more than 5 percentage points, and then sleeps the normal 2
seconds when the write does not raise; an iteration whose read raises (or
whose corrective write raises) sleeps 5 seconds instead of 2. -/
theorem spec_C6_lock_iteration :
    ∀ (target : Int) (s : Rat) (w : Bool),
      ((maintain_volume_iter target (VolReadOutcome.ok s) w).1 = some target ↔
        5 < (scalarToPercent s - target).natAbs)
      ∧ ((maintain_volume_iter target (VolReadOutcome.ok s) w).1 = none ↔
        ¬ 5 < (scalarToPercent s - target).natAbs)
      ∧ (¬ 5 < (scalarToPercent s - target).natAbs →
          maintain_volume_iter target (VolReadOutcome.ok s) w = (none, 2))
      ∧ (5 < (scalarToPercent s - target).natAbs → w = false →
          maintain_volume_iter target (VolReadOutcome.ok s) w = (some target, 2))
      ∧ (5 < (scalarToPercent s - target).natAbs →
          maintain_volume_iter target (VolReadOutcome.ok s) true = (some target, 5))
      ∧ maintain_volume_iter target VolReadOutcome.raised w = (none, 5) := by
  intro target s w
  by_cases h : 5 < (scalarToPercent s - target).natAbs
  · refine ⟨?_, ?_, ?_, ?_, ?_, rfl⟩
    · simp [maintain_volume_iter, h]
    · simp [maintain_volume_iter, h]
    · intro hc; exact absurd h hc
    · intro _ hw; subst hw; simp [maintain_volume_iter, h]
    · intro _; simp [maintain_volume_iter, h]
  · refine ⟨?_, ?_, ?_, ?_, ?_, rfl⟩
    · simp [maintain_volume_iter, h]
    · simp [maintain_volume_iter, h]
    · intro _; simp [maintain_volume_iter, h]
    · intro hc; exact absurd hc h
    · intro hc; exact absurd hc h

/-- Witness for C6: with target 50, a read of scalar 0 (volume 0%) drifts
by more than the 5-point tolerance, so the correction fires and the loop
sleeps the normal 2 seconds; a raised read sleeps 5 seconds. -/
theorem spec_C6_lock_iteration_witness :
    maintain_volume_iter 50 (VolReadOutcome.ok 0) false = (some 50, 2)
    ∧ maintain_volume_iter 50 VolReadOutcome.raised false = (none, 5) :=
  ⟨(spec_C6_lock_iteration 50 0 false).2.2.2.1
      (by norm_num [scalarToPercent]) rfl,
   (spec_C6_lock_iteration 50 0 false).2.2.2.2.2⟩

/-- Counterexample to C7: `set_volume(120)` with a bound platform
interface passes the scalar `120 / 100 = 1.2` to
`SetMasterVolumeLevelScalar` unchanged — the input is neither rejected nor
clamped, and the applied scalar exceeds 1; likewise `set_volume(-10)`
applies a negative scalar. -/
theorem spec_C7_counterexample :
    (set_volume true 120).2 = SetVolumePath.applied ((120 : Rat) / 100)
    ∧ ¬ ((120 : Rat) / 100 ≤ 1)
    ∧ (set_volume true (-10)).2 = SetVolumePath.applied ((-10 : Rat) / 100)
    ∧ ¬ (0 ≤ (-10 : Rat) / 100) :=
  ⟨rfl, by norm_num, rfl, by norm_num⟩

/-- C7 as amended: `set_volume` performs no validation or clamping — with
an interface bound it always applies the scalar `volume / 100` exactly, so
the scalar actually passed to the platform interface lies in `[0, 1]` if
and only if the percent input lies in `[0, 100]`; out-of-range inputs
produce out-of-range scalars. -/
theorem spec_C7_no_clamping :
    ∀ v : Int,
      (set_volume true v).2 = SetVolumePath.applied ((v : Rat) / 100)
      ∧ ((0 ≤ (v : Rat) / 100 ∧ (v : Rat) / 100 ≤ 1) ↔ (0 ≤ v ∧ v ≤ 100))
      ∧ (set_volume true v).1 = v
      ∧ (set_volume false v).2 = SetVolumePath.fallback := by
  intro v
  refine ⟨rfl, ?_, rfl, rfl⟩
  have h100 : (0 : Rat) < 100 := by norm_num
  rw [div_le_one h100, le_div_iff₀ h100, zero_mul]
  exact_mod_cast Iff.rfl

/-- Counterexample to C8: when the platform volume read raises,
`get_current_volume` returns `None`, not the cached volume value (cache
42 here). -/
theorem spec_C8_counterexample :
    get_current_volume VolReadOutcome.raised 42 = none
    ∧ get_current_volume VolReadOutcome.raised 42 ≠ some 42 := by
  exact ⟨rfl, by simp [get_current_volume]⟩

/-- C8 as amended: on a failed (or interface-less) platform read,
`get_current_volume` returns `None` rather than raising or returning a
stale number; the cached-value fallback the spec describes lives in
`update_volume_display`, which keeps and shows the last cached
`current_volume` exactly when the read fails or no interface is bound, and
updates the cache from the platform on success. -/
theorem spec_C8_cached_fallback :
    ∀ (c : Int) (s : Rat),
      get_current_volume VolReadOutcome.raised c = none
      ∧ get_current_volume VolReadOutcome.noInterface c = none
      ∧ get_current_volume (VolReadOutcome.ok s) c = some (scalarToPercent s)
      ∧ update_volume_display VolReadOutcome.raised c = (c, c)
      ∧ update_volume_display VolReadOutcome.noInterface c = (c, c)
      ∧ update_volume_display (VolReadOutcome.ok s) c
          = (scalarToPercent s, scalarToPercent s) := by
  intro c s
  exact ⟨rfl, rfl, rfl, rfl, rfl, rfl⟩

/-- Every volume the lock loop ever writes is the captured target. -/
theorem maintain_volume_writes_eq (target : Int) :
    ∀ envs : List LockIterEnv, ∀ w ∈ maintain_volume_writes target envs, w = target := by
  intro envs
  induction envs with
  | nil => intro w hw; cases hw
  | cons e rest ih =>
    intro w hw
    simp only [maintain_volume_writes] at hw
    rcases he : (maintain_volume_iter target e.read e.writeRaises).1 with _ | v
    · rw [he] at hw
      exact ih w hw
    · rw [he] at hw
      rcases List.mem_cons.mp hw with h | h
      · subst h
        rcases hr : e.read with _ | s | _
        · rw [hr] at he; cases he
        · rw [hr] at he
          simp only [maintain_volume_iter] at he
          by_cases hc : 5 < (scalarToPercent s - target).natAbs
          · simp only [hc, if_true] at he
            exact (Option.some_inj.mp he).symm
          · simp [hc] at he
        · rw [hr] at he; cases he
      · exact ih w h

/-- C9: the lock loop captures its target exactly once, from the
`current_volume` variable at the moment `start_lock` spawns it; every
corrective write across the whole run equals that captured value, and the
run is unchanged when the per-iteration values of the `current_volume`
variable are replaced arbitrarily (only the platform reads and write
failures matter). -/
theorem spec_C9_target_captured_once :
    ∀ (v0 : Int) (envs : List LockIterEnv),
      (∀ w ∈ maintain_volume_run v0 envs, w = v0)
      ∧ (∀ envs2 : List LockIterEnv,
          List.Forall₂ (fun a b => a.read = b.read ∧ a.writeRaises = b.writeRaises)
            envs envs2 →
          maintain_volume_run v0 envs = maintain_volume_run v0 envs2) := by
  intro v0 envs
  constructor
  · exact maintain_volume_writes_eq v0 envs
  · intro envs2 hsame
    unfold maintain_volume_run
    induction hsame with
    | nil => rfl
    | cons hab _ ih =>
      simp only [maintain_volume_writes, hab.1, hab.2, ih]

/-- Witness for C9: a run whose sole iteration reads 0% against captured
target 50 writes exactly the captured 50, and replacing the value the
`current_volume` variable holds during the iteration (0 versus 999) does
not change the run. -/
theorem spec_C9_target_captured_once_witness :
    maintain_volume_run 50 [⟨0, VolReadOutcome.ok 0, false⟩]
      = maintain_volume_run 50 [⟨999, VolReadOutcome.ok 0, false⟩]
    ∧ (50 : Int) = 50 :=
  ⟨(spec_C9_target_captured_once 50 [⟨0, VolReadOutcome.ok 0, false⟩]).2
      [⟨999, VolReadOutcome.ok 0, false⟩]
      (List.Forall₂.cons ⟨rfl, rfl⟩ List.Forall₂.nil),
   (spec_C9_target_captured_once 50 [⟨0, VolReadOutcome.ok 0, false⟩]).1 50
      (by norm_num [maintain_volume_run, maintain_volume_writes,
        maintain_volume_iter, scalarToPercent])⟩

/-- C10: when `unmute` runs without a platform interface, or the platform
unmute call raises, the cached volume is re-applied through `set_volume`;
a cached value of 0 is replaced by 50, any non-zero cached value is
re-applied as is. -/
theorem spec_C10_unmute_fallback :
    ∀ (c : Int) (env : UnmuteEnv), env ≠ UnmuteEnv.ifaceOk →
      ((c = 0 → (unmute env c).2 = some 50 ∧ (unmute env c).1 = 50)
       ∧ (c ≠ 0 → (unmute env c).2 = some c ∧ (unmute env c).1 = c)) := by
  intro c env henv
  rcases env with _ | _ | _
  · exact absurd rfl henv
  · constructor
    · intro h; subst h; exact ⟨rfl, rfl⟩
    · intro h; simp [unmute, h]
  · constructor
    · intro h; subst h; exact ⟨rfl, rfl⟩
    · intro h; simp [unmute, h]

/-- Witness for C10: with no interface and cache 0 the applied volume is
50; with a raising platform call and cache 37 the applied volume is 37. -/
theorem spec_C10_unmute_fallback_witness :
    (unmute UnmuteEnv.noInterface 0).2 = some 50
    ∧ (unmute UnmuteEnv.ifaceRaises 37).2 = some 37 :=
  ⟨((spec_C10_unmute_fallback 0 UnmuteEnv.noInterface (by decide)).1 rfl).1,
   ((spec_C10_unmute_fallback 37 UnmuteEnv.ifaceRaises (by decide)).2 (by decide)).1⟩
